import Mathlib

/-!
Verification of the ikalman GPS filter wrapper (`GPSFilter.cpp`) against its
natural-language specification.

The wrapper code in `GPSFilter.cpp` is embedded directly.  The generic Kalman
filter it drives (`alloc_filter`, `update`, the matrix helpers) is not part of
the repository sources, so that layer is modelled from the specification's
description of the filter recursion (spec §3, §4.2, §4.3); every such
definition is marked `Modelled from the spec:`.

Floating-point `double` arithmetic is modelled by exact real arithmetic.
-/

noncomputable section

open Real

/-- Model of C's `atan2(y, x)`: the angle of the point `(x, y)`, in `(-π, π]`
(ignoring signed zeros, which exact real arithmetic does not distinguish). -/
def atan2 (y x : ℝ) : ℝ :=
  if 0 < x then Real.arctan (y / x)
  else if x < 0 then
    (if 0 ≤ y then Real.arctan (y / x) + Real.pi else Real.arctan (y / x) - Real.pi)
  else
    (if 0 < y then Real.pi / 2 else if y < 0 then -(Real.pi / 2) else 0)

/-- The C `while (bearing >= 360.0) bearing -= 360.0;` loop of `get_bearing`. -/
def wrapSub (b : ℝ) : ℝ :=
  if 360 ≤ b then wrapSub (b - 360) else b
termination_by (⌈b / 360⌉).toNat
decreasing_by
  have h1 : (1 : ℝ) ≤ b / 360 := by
    rw [le_div_iff₀ (by norm_num : (0:ℝ) < 360)]
    linarith
  have h2 : ⌈(b - 360) / 360⌉ = ⌈b / 360⌉ - 1 := by
    rw [sub_div, div_self (by norm_num : (360:ℝ) ≠ 0)]
    exact Int.ceil_sub_one _
  have h3 : (0:ℤ) < ⌈b / 360⌉ :=
    Int.ceil_pos.mpr (lt_of_lt_of_le zero_lt_one h1)
  rw [h2]
  omega

/-- The C `while (bearing < 0.0) bearing += 360.0;` loop of `get_bearing`. -/
def wrapAdd (b : ℝ) : ℝ :=
  if b < 0 then wrapAdd (b + 360) else b
termination_by (⌈-b / 360⌉).toNat
decreasing_by
  have h2 : ⌈-(b + 360) / 360⌉ = ⌈-b / 360⌉ - 1 := by
    have e : -(b + 360) / 360 = -b / 360 - 1 := by ring
    rw [e, Int.ceil_sub_one]
  have h3 : (0:ℤ) < ⌈-b / 360⌉ :=
    Int.ceil_pos.mpr (div_pos (by linarith) (by norm_num))
  rw [h2]
  omega

/-- Reduction of an angle into `[0, 360)` by a single modulo operation, the
form the specification states the two while-loops are equivalent to. -/
def norm360 (b : ℝ) : ℝ := b - 360 * ⌊b / 360⌋

/-- Modelled from the spec: the KalmanFilter state record (spec §3
"KalmanFilter state"), at the dimensions the GPS model uses
(state_dim = 4, obs_dim = 2).  The generic filter sources (`alloc_filter`,
`update`, the matrix type) are not part of this repository's sources. -/
structure KalmanFilter where
  state_transition : Matrix (Fin 4) (Fin 4) ℝ
  observation_model : Matrix (Fin 2) (Fin 4) ℝ
  process_noise_covariance : Matrix (Fin 4) (Fin 4) ℝ
  observation_noise_covariance : Matrix (Fin 2) (Fin 2) ℝ
  observation : Matrix (Fin 2) (Fin 1) ℝ
  state_estimate : Matrix (Fin 4) (Fin 1) ℝ
  estimate_covariance : Matrix (Fin 4) (Fin 4) ℝ

/-- Modelled from the spec: closed-form inversion of the 2×2 innovation
covariance (spec §4.2), failing (`none`, i.e. `SingularMatrixError`) when the
determinant is zero. -/
def invert2 (m : Matrix (Fin 2) (Fin 2) ℝ) : Option (Matrix (Fin 2) (Fin 2) ℝ) :=
  let d := m 0 0 * m 1 1 - m 0 1 * m 1 0
  if d = 0 then none
  else some (Matrix.of ![![m 1 1 / d, -(m 0 1) / d], ![-(m 1 0) / d, m 0 0 / d]])

/-- Modelled from the spec: the `predict()` step (spec §4.3). -/
def predict (f : KalmanFilter) : KalmanFilter :=
  { f with
    state_estimate := f.state_transition * f.state_estimate
    estimate_covariance :=
      f.state_transition * f.estimate_covariance * f.state_transition.transpose +
        f.process_noise_covariance }

/-- Modelled from the spec: the combined predict+update step `update()`
(spec §4.3), including the mandated symmetrization of the posterior
covariance; `none` models a propagated `SingularMatrixError`. -/
def update (f : KalmanFilter) : Option KalmanFilter :=
  let p := predict f
  let innovation := p.observation - p.observation_model * p.state_estimate
  let innovation_covariance :=
    p.observation_model * p.estimate_covariance * p.observation_model.transpose +
      p.observation_noise_covariance
  (invert2 innovation_covariance).map fun inv =>
    let gain := p.estimate_covariance * p.observation_model.transpose * inv
    let newCov := (1 - gain * p.observation_model) * p.estimate_covariance
    { p with
      state_estimate := p.state_estimate + gain * innovation
      estimate_covariance := ((1 : ℝ) / 2) • (newCov + newCov.transpose) }

/-- `static const double PI = 3.14159265;` from `GPSFilter.cpp`. -/
def PI : ℝ := 3.14159265

/-- `static const double EARTH_RADIUS_IN_MILES = 3963.1676;`. -/
def EARTH_RADIUS_IN_MILES : ℝ := 3963.1676

/-- `double to_radians = PI / 180.0;`, the conversion factor each derived
computation in `GPSFilter.cpp` declares locally. -/
def to_radians : ℝ := PI / 180

/-- Writing a single entry of a matrix, the model of a C assignment
`m.data[i][j] = v;`. -/
def setEntry {m n : ℕ} (M : Matrix (Fin m) (Fin n) ℝ) (i : Fin m) (j : Fin n)
    (v : ℝ) : Matrix (Fin m) (Fin n) ℝ :=
  Matrix.of fun a b => if a = i ∧ b = j then v else M a b

/-- `GPSFilter::set_seconds_per_timestep`: writes
`unit_scaler * seconds_per_timestep` (with `unit_scaler = 0.001`) into
`state_transition.data[0][2]` and `state_transition.data[1][3]`. -/
def set_seconds_per_timestep (f : KalmanFilter) (seconds_per_timestep : ℝ) :
    KalmanFilter :=
  { f with
    state_transition :=
      setEntry (setEntry f.state_transition 0 2 (0.001 * seconds_per_timestep))
        1 3 (0.001 * seconds_per_timestep) }

/-- The `GPSFilter::GPSFilter(double noise)` constructor: identity
state transition with the one-second time step applied, position-observing
observation model, `diag(1e-6, 1e-6, 1, 1)` process noise,
`diag(1e-6·noise, 1e-6·noise)` observation noise, zero initial state and
`1e12`-scaled identity initial covariance. -/
def GPSFilter_init (noise : ℝ) : KalmanFilter :=
  set_seconds_per_timestep
    { state_transition := 1
      observation_model := Matrix.of ![![1, 0, 0, 0], ![0, 1, 0, 0]]
      process_noise_covariance :=
        Matrix.of ![![0.000001, 0, 0, 0], ![0, 0.000001, 0, 0],
          ![0, 0, 1, 0], ![0, 0, 0, 1]]
      observation_noise_covariance :=
        Matrix.of ![![0.000001 * noise, 0], ![0, 0.000001 * noise]]
      observation := 0
      state_estimate := Matrix.of ![![0], ![0], ![0], ![0]]
      estimate_covariance :=
        (1000 * 1000 * 1000 * 1000 : ℝ) • (1 : Matrix (Fin 4) (Fin 4) ℝ) }
    1

/-- `set_matrix(f.observation, a, b)`: loads the 2×1 observation vector. -/
def set_observation (f : KalmanFilter) (a b : ℝ) : KalmanFilter :=
  { f with observation := Matrix.of ![![a], ![b]] }

/-- `GPSFilter::update_velocity2d`: sets the time step, loads the scaled
observation and runs the filter update — with no validation of any kind. -/
def update_velocity2d (f : KalmanFilter)
    (lat lon seconds_since_last_timestep : ℝ) : Option KalmanFilter :=
  update (set_observation (set_seconds_per_timestep f seconds_since_last_timestep)
    (lat * 1000) (lon * 1000))

/-- `GPSFilter::get_lat_long`. -/
def get_lat_long (f : KalmanFilter) : ℝ × ℝ :=
  (f.state_estimate 0 0 / 1000, f.state_estimate 1 0 / 1000)

/-- `GPSFilter::get_velocity`. -/
def get_velocity (f : KalmanFilter) : ℝ × ℝ :=
  (f.state_estimate 2 0 / (1000 * 1000), f.state_estimate 3 0 / (1000 * 1000))

/-- The value `GPSFilter::get_bearing` computes before its two
normalization while-loops run. -/
def get_bearing_raw (f : KalmanFilter) : ℝ :=
  let lat := (get_lat_long f).1 * to_radians
  let delta_lat := (get_velocity f).1 * to_radians
  let delta_lon := (get_velocity f).2 * to_radians
  let lat1 := lat - delta_lat
  let y := Real.sin delta_lon * Real.cos lat
  let x := Real.cos lat1 * Real.sin lat -
    Real.sin lat1 * Real.cos lat * Real.cos delta_lon
  atan2 y x / to_radians

/-- `GPSFilter::get_bearing`: the raw atan2 bearing in degrees, pushed into
range by the two while-loops. -/
def get_bearing (f : KalmanFilter) : ℝ :=
  wrapAdd (wrapSub (get_bearing_raw f))

/-- `GPSFilter::calculate_mph`. -/
def calculate_mph (lat lon delta_lat delta_lon : ℝ) : ℝ :=
  let lat := lat * to_radians
  let lon := lon * to_radians
  let delta_lat := delta_lat * to_radians
  let delta_lon := delta_lon * to_radians
  let lat1 := lat - delta_lat
  let sin_half_dlat := Real.sin (delta_lat / 2)
  let sin_half_dlon := Real.sin (delta_lon / 2)
  let a := sin_half_dlat * sin_half_dlat +
    Real.cos lat1 * Real.cos lat * sin_half_dlon * sin_half_dlon
  let radians_per_second :=
    2 * atan2 (1000 * Real.sqrt a) (1000 * Real.sqrt (1 - a))
  let miles_per_second := radians_per_second * EARTH_RADIUS_IN_MILES
  miles_per_second * 60 * 60

/-- `GPSFilter::get_mph`. -/
def get_mph (f : KalmanFilter) : ℝ :=
  calculate_mph (get_lat_long f).1 (get_lat_long f).2
    (get_velocity f).1 (get_velocity f).2

/-- Definition following the spec's words for `bearing_degrees()` (spec §4.5):
the great-circle initial bearing from `(lat − Δlat, lon − Δlon)` to
`(lat, lon)` via
`atan2(sin(Δlon)·cos(lat), cos(lat−Δlat)·sin(lat) − sin(lat−Δlat)·cos(lat)·cos(Δlon))`,
angles in radians, converted back to degrees and normalized into `[0, 360)`
by a single modulo-360 reduction (which the spec states the repeated ±360
adjustment is equivalent to). -/
def bearing_degrees_spec (f : KalmanFilter) : ℝ :=
  let lat := (get_lat_long f).1 * to_radians
  let delta_lat := (get_velocity f).1 * to_radians
  let delta_lon := (get_velocity f).2 * to_radians
  norm360 (atan2 (Real.sin delta_lon * Real.cos lat)
    (Real.cos (lat - delta_lat) * Real.sin lat -
      Real.sin (lat - delta_lat) * Real.cos lat * Real.cos delta_lon) / to_radians)

/-- Definition following the spec's words for `speed_mph()` (spec §4.5): the
haversine great-circle angular distance between `(lat − Δlat, lon − Δlon)`
and `(lat, lon)` (velocity delta treated as a one-second displacement),
times the Earth radius 3963.1676 miles, times 3600 seconds per hour. -/
def speed_mph_spec (f : KalmanFilter) : ℝ :=
  let lat2 := (get_lat_long f).1 * to_radians
  let lat1 := ((get_lat_long f).1 - (get_velocity f).1) * to_radians
  let dLambda :=
    ((get_lat_long f).2 - ((get_lat_long f).2 - (get_velocity f).2)) * to_radians
  let a := Real.sin ((lat2 - lat1) / 2) ^ 2 +
    Real.cos lat1 * Real.cos lat2 * Real.sin (dLambda / 2) ^ 2
  2 * atan2 (Real.sqrt a) (Real.sqrt (1 - a)) * 3963.1676 * 3600

lemma arctan_nonneg {x : ℝ} (h : 0 ≤ x) : 0 ≤ Real.arctan x := by
  have := Real.arctan_strictMono.monotone h
  rwa [Real.arctan_zero] at this

lemma arctan_nonpos {x : ℝ} (h : x ≤ 0) : Real.arctan x ≤ 0 := by
  have := Real.arctan_strictMono.monotone h
  rwa [Real.arctan_zero] at this

/-- `atan2` is invariant under scaling both arguments by a positive factor. -/
lemma atan2_smul_pos {c : ℝ} (hc : 0 < c) (y x : ℝ) :
    atan2 (c * y) (c * x) = atan2 y x := by
  have hc0 : c ≠ 0 := ne_of_gt hc
  have hdiv : c * y / (c * x) = y / x := by
    rcases eq_or_ne x 0 with hx | hx
    · simp [hx]
    · rw [mul_div_mul_left _ _ hc0]
  have h1 : 0 < c * x ↔ 0 < x := by
    constructor <;> intro h <;> nlinarith
  have h2 : c * x < 0 ↔ x < 0 := by
    constructor <;> intro h <;> nlinarith
  have h3 : 0 ≤ c * y ↔ 0 ≤ y := by
    constructor <;> intro h <;> nlinarith
  have h4 : 0 < c * y ↔ 0 < y := by
    constructor <;> intro h <;> nlinarith
  have h5 : c * y < 0 ↔ y < 0 := by
    constructor <;> intro h <;> nlinarith
  simp only [atan2, hdiv, h1, h2, h3, h4, h5]

/-- When the first argument is nonnegative, `atan2` is nonnegative. -/
lemma atan2_nonneg {y : ℝ} (x : ℝ) (hy : 0 ≤ y) : 0 ≤ atan2 y x := by
  have hpi := Real.pi_pos
  unfold atan2
  split_ifs with hx hx' hy0 hy1
  · exact arctan_nonneg (div_nonneg hy (le_of_lt hx))
  · have := Real.neg_pi_div_two_lt_arctan (y / x)
    linarith
  · linarith
  · exact absurd hy1 (not_lt.mpr hy)
  · exact le_refl 0

/-- `atan2` never exceeds `π`. -/
lemma atan2_le_pi (y x : ℝ) : atan2 y x ≤ Real.pi := by
  have hpi := Real.pi_pos
  unfold atan2
  split_ifs with hx hx' hy0 hy1 hy2
  · have := Real.arctan_lt_pi_div_two (y / x)
    linarith
  · have : Real.arctan (y / x) ≤ 0 :=
      arctan_nonpos (div_nonpos_iff.mpr (Or.inl ⟨hy0, le_of_lt hx'⟩))
    linarith
  · have := Real.arctan_lt_pi_div_two (y / x)
    linarith
  · linarith
  · linarith
  · linarith

/-- `atan2` is strictly greater than `-π`. -/
lemma neg_pi_lt_atan2 (y x : ℝ) : -Real.pi < atan2 y x := by
  have hpi := Real.pi_pos
  unfold atan2
  split_ifs with hx hx' hy0 hy1 hy2
  · have := Real.neg_pi_div_two_lt_arctan (y / x)
    linarith
  · have := Real.neg_pi_div_two_lt_arctan (y / x)
    linarith
  · have hq : 0 < y / x := div_pos_of_neg_of_neg (not_le.mp hy0) hx'
    have : 0 < Real.arctan (y / x) := by
      have := Real.arctan_strictMono hq
      rwa [Real.arctan_zero] at this
    linarith
  · linarith
  · linarith
  · linarith

lemma wrapSub_lt (b : ℝ) : wrapSub b < 360 := by
  induction b using wrapSub.induct with
  | case1 b h ih =>
    rw [wrapSub, if_pos h]
    exact ih
  | case2 b h =>
    rw [wrapSub, if_neg h]
    linarith

lemma wrapSub_eq_sub_int (b : ℝ) : ∃ n : ℤ, wrapSub b = b - 360 * n := by
  induction b using wrapSub.induct with
  | case1 b h ih =>
    obtain ⟨n, hn⟩ := ih
    refine ⟨n + 1, ?_⟩
    rw [wrapSub, if_pos h, hn]
    push_cast
    ring
  | case2 b h =>
    refine ⟨0, ?_⟩
    rw [wrapSub, if_neg h]
    push_cast
    ring

lemma wrapAdd_nonneg (b : ℝ) : 0 ≤ wrapAdd b := by
  induction b using wrapAdd.induct with
  | case1 b h ih =>
    rw [wrapAdd, if_pos h]
    exact ih
  | case2 b h =>
    rw [wrapAdd, if_neg h]
    linarith

lemma wrapAdd_lt {b : ℝ} (hb : b < 360) : wrapAdd b < 360 := by
  induction b using wrapAdd.induct with
  | case1 b h ih =>
    rw [wrapAdd, if_pos h]
    exact ih (by linarith)
  | case2 b h =>
    rwa [wrapAdd, if_neg h]

lemma wrapAdd_eq_add_int (b : ℝ) : ∃ n : ℤ, wrapAdd b = b + 360 * n := by
  induction b using wrapAdd.induct with
  | case1 b h ih =>
    obtain ⟨n, hn⟩ := ih
    refine ⟨n + 1, ?_⟩
    rw [wrapAdd, if_pos h, hn]
    push_cast
    ring
  | case2 b h =>
    refine ⟨0, ?_⟩
    rw [wrapAdd, if_neg h]
    push_cast
    ring

/-- The two normalization while-loops of `get_bearing`, run in sequence,
compute exactly the modulo-360 reduction into `[0, 360)`. -/
lemma wrapAdd_wrapSub (b : ℝ) : wrapAdd (wrapSub b) = norm360 b := by
  obtain ⟨n, hn⟩ := wrapSub_eq_sub_int b
  obtain ⟨m, hm⟩ := wrapAdd_eq_add_int (wrapSub b)
  have hx0 : 0 ≤ wrapAdd (wrapSub b) := wrapAdd_nonneg _
  have hx1 : wrapAdd (wrapSub b) < 360 := wrapAdd_lt (wrapSub_lt b)
  have hxeq : wrapAdd (wrapSub b) = b - 360 * ((n : ℝ) - (m : ℝ)) := by
    rw [hm, hn]
    ring
  have hfloor : ⌊b / 360⌋ = n - m := by
    rw [Int.floor_eq_iff]
    have hb : b = wrapAdd (wrapSub b) + 360 * ((n : ℝ) - (m : ℝ)) := by
      linarith
    constructor
    · push_cast
      rw [le_div_iff₀ (by norm_num : (0:ℝ) < 360)]
      linarith
    · push_cast
      rw [div_lt_iff₀ (by norm_num : (0:ℝ) < 360)]
      linarith
  rw [norm360, hfloor, hxeq]
  push_cast
  ring

@[simp]

lemma setEntry_apply {m n : ℕ} (M : Matrix (Fin m) (Fin n) ℝ) (i : Fin m)
    (j : Fin n) (v : ℝ) (a : Fin m) (b : Fin n) :
    setEntry M i j v a b = if a = i ∧ b = j then v else M a b := rfl

lemma update_eq_some_frame {f g : KalmanFilter} (h : update f = some g) :
    g.state_transition = f.state_transition ∧
    g.observation = f.observation ∧
    g.observation_model = f.observation_model := by
  simp only [update, Option.map_eq_some'] at h
  obtain ⟨inv, hinv, hg⟩ := h
  rw [← hg]
  exact ⟨rfl, rfl, rfl⟩

lemma div_to_radians_bounds {A : ℝ} (h1 : -Real.pi < A) (h2 : A ≤ Real.pi) :
    -360 < A / to_radians ∧ A / to_radians < 360 := by
  have hc : (0:ℝ) < to_radians := by
    simp only [to_radians, PI]
    norm_num
  have hpi3 : Real.pi < 3.15 := Real.pi_lt_d2
  constructor
  · rw [lt_div_iff₀ hc]
    simp only [to_radians, PI]
    nlinarith
  · rw [div_lt_iff₀ hc]
    simp only [to_radians, PI]
    nlinarith

lemma bearing_raw_bounds (f : KalmanFilter) :
    -360 < get_bearing_raw f ∧ get_bearing_raw f < 360 := by
  simp only [get_bearing_raw]
  exact div_to_radians_bounds (neg_pi_lt_atan2 _ _) (atan2_le_pi _ _)

lemma init_state_transition_entry :
    (GPSFilter_init 1).state_transition 0 2 = 0.001 := by
  simp only [GPSFilter_init, set_seconds_per_timestep, setEntry_apply]
  norm_num

lemma invalid_call_state_transition_entry :
    (set_observation (set_seconds_per_timestep (GPSFilter_init 1) (-1))
      (0 * 1000) (0 * 1000)).state_transition 0 2 = 0.001 * (-1) := by
  simp only [set_observation, set_seconds_per_timestep, setEntry_apply]
  norm_num

/-- C2: for every filter state, `get_bearing` returns exactly the spec's
great-circle initial bearing formula, converted back to degrees and reduced
into `[0, 360)`; the code's two while-loops realize the spec's repeated ±360
normalization, which equals a single modulo-360 reduction. -/
theorem get_bearing_eq_spec (f : KalmanFilter) :
    get_bearing f = bearing_degrees_spec f := by
  simp only [get_bearing, bearing_degrees_spec, get_bearing_raw]
  exact wrapAdd_wrapSub _

/-- C4: after construction with noise multiplier `noise`, the filter has
observation noise `diag(1e-6·noise, 1e-6·noise)`, process noise
`diag(1e-6, 1e-6, 1, 1)`, zero initial state estimate, and initial estimate
covariance `1e12 · I`. -/
theorem init_configuration (noise : ℝ) :
    (GPSFilter_init noise).observation_noise_covariance =
      Matrix.diagonal ![0.000001 * noise, 0.000001 * noise] ∧
    (GPSFilter_init noise).process_noise_covariance =
      Matrix.diagonal ![0.000001, 0.000001, 1, 1] ∧
    (GPSFilter_init noise).state_estimate = 0 ∧
    (GPSFilter_init noise).estimate_covariance =
      ((10 : ℝ) ^ 12) • (1 : Matrix (Fin 4) (Fin 4) ℝ) := by
  refine ⟨?_, ?_, ?_, ?_⟩ <;>
    · ext i j
      fin_cases i <;> fin_cases j <;>
        simp [GPSFilter_init, set_seconds_per_timestep, Matrix.diagonal,
          Matrix.one_apply, Matrix.vecHead, Matrix.vecTail] <;> norm_num

/-- C6: `set_seconds_per_timestep` writes `0.001 · seconds` into exactly the
state-transition entries `(0,2)` and `(1,3)`, leaving every other entry of
`state_transition` and every other field of the filter unchanged. -/
theorem set_seconds_frame (f : KalmanFilter) (s : ℝ) :
    (∀ i j, (set_seconds_per_timestep f s).state_transition i j =
      if (i = 0 ∧ j = 2) ∨ (i = 1 ∧ j = 3) then 0.001 * s
      else f.state_transition i j) ∧
    (set_seconds_per_timestep f s).observation_model = f.observation_model ∧
    (set_seconds_per_timestep f s).process_noise_covariance =
      f.process_noise_covariance ∧
    (set_seconds_per_timestep f s).observation_noise_covariance =
      f.observation_noise_covariance ∧
    (set_seconds_per_timestep f s).observation = f.observation ∧
    (set_seconds_per_timestep f s).state_estimate = f.state_estimate ∧
    (set_seconds_per_timestep f s).estimate_covariance =
      f.estimate_covariance := by
  refine ⟨?_, rfl, rfl, rfl, rfl, rfl, rfl⟩
  intro i j
  simp only [set_seconds_per_timestep, setEntry_apply]
  by_cases h1 : i = 1 ∧ j = 3
  · simp [h1]
  · by_cases h2 : i = 0 ∧ j = 2
    · simp [h1, h2]
    · simp [h1, h2]

/-- C7: `get_lat_long` returns the position entries of the state estimate
descaled by 1000, `get_velocity` the velocity entries descaled by 1e6; both
are pure accessors of the filter state. -/
theorem accessor_values (f : KalmanFilter) :
    get_lat_long f =
      (f.state_estimate 0 0 / 1000, f.state_estimate 1 0 / 1000) ∧
    get_velocity f =
      (f.state_estimate 2 0 / 1000000, f.state_estimate 3 0 / 1000000) := by
  constructor
  · rfl
  · unfold get_velocity
    norm_num

/-- C3: for every filter state, `get_mph` returns the haversine great-circle
angular distance between `(lat − Δlat, lon − Δlon)` and `(lat, lon)` —
treating the velocity delta as a one-second displacement — multiplied by the
Earth radius 3963.1676 miles and by 3600 seconds per hour. -/
theorem get_mph_eq_spec (f : KalmanFilter) : get_mph f = speed_mph_spec f := by
  simp only [get_mph, calculate_mph, speed_mph_spec]
  have harg1 : ((get_lat_long f).1 * to_radians -
      ((get_lat_long f).1 - (get_velocity f).1) * to_radians) =
      (get_velocity f).1 * to_radians := by ring
  have harg2 : (((get_lat_long f).2 - ((get_lat_long f).2 - (get_velocity f).2)) *
      to_radians) = (get_velocity f).2 * to_radians := by ring
  have harg3 : (((get_lat_long f).1 - (get_velocity f).1) * to_radians) =
      (get_lat_long f).1 * to_radians - (get_velocity f).1 * to_radians := by ring
  rw [harg1, harg2, harg3]
  have hA : Real.sin ((get_velocity f).1 * to_radians / 2) ^ 2 +
      Real.cos ((get_lat_long f).1 * to_radians - (get_velocity f).1 * to_radians) *
        Real.cos ((get_lat_long f).1 * to_radians) *
        Real.sin ((get_velocity f).2 * to_radians / 2) ^ 2 =
      Real.sin ((get_velocity f).1 * to_radians / 2) *
        Real.sin ((get_velocity f).1 * to_radians / 2) +
      Real.cos ((get_lat_long f).1 * to_radians - (get_velocity f).1 * to_radians) *
        Real.cos ((get_lat_long f).1 * to_radians) *
        Real.sin ((get_velocity f).2 * to_radians / 2) *
        Real.sin ((get_velocity f).2 * to_radians / 2) := by ring
  rw [hA]
  rw [atan2_smul_pos (by norm_num : (0:ℝ) < 1000)]
  simp only [EARTH_RADIUS_IN_MILES]
  ring

/-- C8: `get_mph` never returns a negative value: in exact real arithmetic
`sqrt` is nonnegative, so both `atan2` arguments are nonnegative and the
angular distance is nonnegative, as is the product with the positive
unit-conversion constants. -/
theorem get_mph_nonneg (f : KalmanFilter) : 0 ≤ get_mph f := by
  simp only [get_mph, calculate_mph]
  apply mul_nonneg
  apply mul_nonneg
  apply mul_nonneg
  · apply mul_nonneg
    · norm_num
    · exact atan2_nonneg _ (by positivity)
  · simp only [EARTH_RADIUS_IN_MILES]
    norm_num
  · norm_num
  · norm_num

/-- C10: `get_bearing` terminates, and quickly: the raw degree value computed
from `atan2` lies strictly between −360 and 360, so the subtracting loop
executes zero iterations and the adding loop at most one, after which the
result lies in `[0, 360)`. -/
theorem bearing_loop_iterations (f : KalmanFilter) :
    wrapSub (get_bearing_raw f) = get_bearing_raw f ∧
    (get_bearing f = get_bearing_raw f ∨
      get_bearing f = get_bearing_raw f + 360) ∧
    0 ≤ get_bearing f ∧ get_bearing f < 360 := by
  obtain ⟨hlb, hub⟩ := bearing_raw_bounds f
  have hsub : wrapSub (get_bearing_raw f) = get_bearing_raw f := by
    rw [wrapSub, if_neg (not_le.mpr hub)]
  refine ⟨hsub, ?_⟩
  rw [get_bearing, hsub]
  rcases le_or_lt 0 (get_bearing_raw f) with h0 | h0
  · have : wrapAdd (get_bearing_raw f) = get_bearing_raw f := by
      rw [wrapAdd, if_neg (not_lt.mpr h0)]
    rw [this]
    exact ⟨Or.inl rfl, h0, hub⟩
  · have : wrapAdd (get_bearing_raw f) = get_bearing_raw f + 360 := by
      rw [wrapAdd, if_pos h0, wrapAdd, if_neg (by linarith)]
    rw [this]
    exact ⟨Or.inr rfl, by linarith, by linarith⟩

/-- C1 (counterexample): at the invalid input `lat = 0, lon = 0,
seconds_since_last = -1` the call is not rejected with the state left
unchanged: whatever the filter update returns, the run does not preserve the
`state_transition` entry `(0,2)` (it is overwritten with `0.001·(-1)` before
the update), and the result is never `some` of the untouched filter. -/
theorem observe_invalid_not_rejected :
    ((update_velocity2d (GPSFilter_init 1) 0 0 (-1)).map
        fun g => g.state_transition 0 2) ≠
      some ((GPSFilter_init 1).state_transition 0 2) ∧
    update_velocity2d (GPSFilter_init 1) 0 0 (-1) ≠ some (GPSFilter_init 1) := by
  have hmain : ((update_velocity2d (GPSFilter_init 1) 0 0 (-1)).map
      fun g => g.state_transition 0 2) ≠
      some ((GPSFilter_init 1).state_transition 0 2) := by
    rw [init_state_transition_entry]
    cases hupd : update_velocity2d (GPSFilter_init 1) 0 0 (-1) with
    | none => simp
    | some g =>
      have hupd' : update (set_observation
          (set_seconds_per_timestep (GPSFilter_init 1) (-1))
          (0 * 1000) (0 * 1000)) = some g := hupd
      have hframe := (update_eq_some_frame hupd').1
      simp only [Option.map_some']
      intro hcon
      have hval : g.state_transition 0 2 = 0.001 * (-1) := by
        rw [hframe, invalid_call_state_transition_entry]
      rw [hval] at hcon
      have := Option.some.inj hcon
      norm_num at this
  refine ⟨hmain, fun heq => hmain ?_⟩
  rw [heq]
  rfl

/-- C1 (amended): `update_velocity2d` performs no input validation.  For any
input with `seconds_since_last ≤ 0` or `lat`/`lon` out of geographic range,
it proceeds exactly as for valid input: the state-transition coupling entries
are overwritten with `0.001·seconds`, the observation is loaded as
`[lat·1000, lon·1000]`, and the filter update is attempted; no
`InvalidInputError` exists in the code and the state is not left unchanged. -/
theorem observe_no_validation (f : KalmanFilter) (lat lon s : ℝ)
    (h : s ≤ 0 ∨ lat < -90 ∨ 90 < lat ∨ lon < -180 ∨ 180 < lon) :
    update_velocity2d f lat lon s =
      update (set_observation (set_seconds_per_timestep f s)
        (lat * 1000) (lon * 1000)) ∧
    (set_observation (set_seconds_per_timestep f s)
        (lat * 1000) (lon * 1000)).state_transition 0 2 = 0.001 * s ∧
    (set_observation (set_seconds_per_timestep f s)
        (lat * 1000) (lon * 1000)).state_transition 1 3 = 0.001 * s ∧
    (set_observation (set_seconds_per_timestep f s)
        (lat * 1000) (lon * 1000)).observation =
      Matrix.of ![![lat * 1000], ![lon * 1000]] := by
  refine ⟨rfl, ?_, ?_, rfl⟩ <;>
    · simp only [set_observation, set_seconds_per_timestep, setEntry_apply]
      norm_num

/-- Witness for C1 (amended) at the concrete invalid input
`(lat, lon, seconds) = (0, 0, -1)`. -/
theorem observe_no_validation_witness :
    update_velocity2d (GPSFilter_init 1) 0 0 (-1) =
      update (set_observation (set_seconds_per_timestep (GPSFilter_init 1) (-1))
        (0 * 1000) (0 * 1000)) ∧
    (set_observation (set_seconds_per_timestep (GPSFilter_init 1) (-1))
        (0 * 1000) (0 * 1000)).state_transition 0 2 = 0.001 * (-1) ∧
    (set_observation (set_seconds_per_timestep (GPSFilter_init 1) (-1))
        (0 * 1000) (0 * 1000)).state_transition 1 3 = 0.001 * (-1) ∧
    (set_observation (set_seconds_per_timestep (GPSFilter_init 1) (-1))
        (0 * 1000) (0 * 1000)).observation =
      Matrix.of ![![0 * 1000], ![0 * 1000]] :=
  observe_no_validation (GPSFilter_init 1) 0 0 (-1) (Or.inl (by norm_num))

/-- C5: for every call with valid inputs, `update_velocity2d` first sets the
time step (writing `0.001·s` into the two coupling entries), then loads the
2×1 observation `[lat·1000, lon·1000]`, and then invokes the combined
predict+update step exactly once on that prepared state. -/
theorem observe_sequence (f : KalmanFilter) (lat lon s : ℝ)
    (hs : 0 < s) (hlat1 : -90 ≤ lat) (hlat2 : lat ≤ 90)
    (hlon1 : -180 ≤ lon) (hlon2 : lon ≤ 180) :
    update_velocity2d f lat lon s =
      update (set_observation (set_seconds_per_timestep f s)
        (lat * 1000) (lon * 1000)) ∧
    (set_observation (set_seconds_per_timestep f s)
        (lat * 1000) (lon * 1000)).observation =
      Matrix.of ![![lat * 1000], ![lon * 1000]] ∧
    (set_seconds_per_timestep f s).state_transition 0 2 = 0.001 * s ∧
    (set_seconds_per_timestep f s).state_transition 1 3 = 0.001 * s := by
  refine ⟨rfl, rfl, ?_, ?_⟩ <;>
    · simp only [set_seconds_per_timestep, setEntry_apply]
      norm_num

/-- Witness for C5 at the concrete valid input
`(lat, lon, seconds) = (40, -75, 1)`. -/
theorem observe_sequence_witness :
    update_velocity2d (GPSFilter_init 1) 40 (-75) 1 =
      update (set_observation (set_seconds_per_timestep (GPSFilter_init 1) 1)
        (40 * 1000) ((-75) * 1000)) ∧
    (set_observation (set_seconds_per_timestep (GPSFilter_init 1) 1)
        (40 * 1000) ((-75) * 1000)).observation =
      Matrix.of ![![40 * 1000], ![(-75) * 1000]] ∧
    (set_seconds_per_timestep (GPSFilter_init 1) 1).state_transition 0 2 =
      0.001 * 1 ∧
    (set_seconds_per_timestep (GPSFilter_init 1) 1).state_transition 1 3 =
      0.001 * 1 :=
  observe_sequence (GPSFilter_init 1) 40 (-75) 1 (by norm_num) (by norm_num)
    (by norm_num) (by norm_num) (by norm_num)

/-- C9: for every haversine value `a` with `0 ≤ a ≤ 1`, the scaled expression
`2·atan2(1000·√a, 1000·√(1−a))` used in `calculate_mph` equals the standard
haversine central angle `2·atan2(√a, √(1−a))`: the factor 1000 cancels by the
positive-scale invariance of `atan2`. -/
theorem atan2_thousand_scale_cancel (a : ℝ) (h0 : 0 ≤ a) (h1 : a ≤ 1) :
    2 * atan2 (1000 * Real.sqrt a) (1000 * Real.sqrt (1 - a)) =
      2 * atan2 (Real.sqrt a) (Real.sqrt (1 - a)) := by
  rw [atan2_smul_pos (by norm_num : (0:ℝ) < 1000)]

/-- Witness for C9 at the concrete value `a = 0`. -/
theorem atan2_thousand_scale_cancel_witness :
    2 * atan2 (1000 * Real.sqrt 0) (1000 * Real.sqrt (1 - 0)) =
      2 * atan2 (Real.sqrt 0) (Real.sqrt (1 - 0)) :=
  atan2_thousand_scale_cancel 0 (by norm_num) (by norm_num)
